import Mathlib

/-!
Verification of the CDP Toolkit adapter
(`cdp_langchain/agent_toolkits/cdp_toolkit.py`).

The adapter turns an external registry of action descriptors into a list
of tool wrappers, each bound to one credentials/config object
(`CdpAgentkitWrapper`), and exposes the list through `get_tools`.

Shallow embedding conventions:
* The argument schema, the callable and the credentials object are opaque
  to the adapter, so they are type parameters `Schema`, `Func`, `Wrapper`.
* `CDP_ACTIONS` is an external registry imported from `cdp_agentkit_core`;
  its concrete value lives outside this slice, so the construction takes
  the registry as an explicit parameter (the spec calls it the input
  boundary: an ordered collection of action descriptors).
* The Python method `get_tools` reads `self.tools` and returns it without
  touching the receiver; the embedding makes the (absence of) state change
  explicit by returning the result together with the post-call state.
-/

/-- Modelled from the spec: an action descriptor from the external
registry `CDP_ACTIONS` (module `cdp_agentkit_core.actions`, not part of
this slice).  per the spec it carries a name, a description, an argument
schema and an executable function, and is read-only for the adapter. -/
structure CdpAction (Schema Func : Type) where
  name : String
  description : String
  args_schema : Schema
  func : Func
  deriving DecidableEq, Repr

/-- Modelled from the spec: the tool wrapper class `CdpTool`
(module `cdp_langchain.tools`, not part of this slice).  Per the spec a
tool wrapper stores the same name, description and schema as the
descriptor, plus a bound reference to the credentials object and the
function to invoke; its constructor stores the five keyword arguments
unchanged. -/
structure CdpTool (Schema Func Wrapper : Type) where
  name : String
  description : String
  cdp_agentkit_wrapper : Wrapper
  args_schema : Schema
  func : Func
  deriving DecidableEq, Repr

/-- The adapter class `CdpToolkit`.  Its single field `tools` defaults to
the empty list (`tools: list[BaseTool] = []` in the source). -/
structure CdpToolkit (Schema Func Wrapper : Type) where
  tools : List (CdpTool Schema Func Wrapper) := []
  deriving DecidableEq, Repr

namespace CdpToolkit

variable {Schema Func Wrapper : Type}

/-- The classmethod `from_cdp_agentkit_wrapper`.  In the source the
registry is the fixed external constant `CDP_ACTIONS`; here it is the
explicit first argument.  The body mirrors the list comprehension of the
source: one `CdpTool` per action, fields copied verbatim, the one
credentials object bound into every wrapper, then `cls(tools=tools)`. -/
def from_cdp_agentkit_wrapper (CDP_ACTIONS : List (CdpAction Schema Func))
    (cdp_agentkit_wrapper : Wrapper) : CdpToolkit Schema Func Wrapper :=
  let actions := CDP_ACTIONS
  let tools := actions.map (fun action =>
    { name := action.name
      description := action.description
      cdp_agentkit_wrapper := cdp_agentkit_wrapper
      args_schema := action.args_schema
      func := action.func : CdpTool Schema Func Wrapper })
  { tools := tools }

/-- The method `get_tools`.  The source returns `self.tools`; the
embedding also returns the post-call state of the receiver, which the
source leaves untouched. -/
def get_tools (self : CdpToolkit Schema Func Wrapper) :
    List (CdpTool Schema Func Wrapper) × CdpToolkit Schema Func Wrapper :=
  (self.tools, self)

/-- Shared helper: the constructed sequence has one wrapper per registry
entry. -/
theorem length_tools_from (reg : List (CdpAction Schema Func)) (w : Wrapper) :
    (from_cdp_agentkit_wrapper reg w).tools.length = reg.length := by
  simp [from_cdp_agentkit_wrapper]

end CdpToolkit

/-- C1: for every registry of size N and every credentials/config object,
constructing the adapter via from_cdp_agentkit_wrapper yields an adapter
whose tools sequence contains exactly N tool wrappers, one per registry
entry. -/
theorem from_cdp_agentkit_wrapper_tools_length {Schema Func Wrapper : Type}
    (reg : List (CdpAction Schema Func)) (w : Wrapper) :
    (CdpToolkit.from_cdp_agentkit_wrapper reg w).tools.length = reg.length :=
  CdpToolkit.length_tools_from reg w

/-- C2: for every registry, index by index, the tool wrapper at position i
of the constructed sequence is exactly the wrapper built from the
descriptor at position i of the registry, with no filtering,
deduplication, or sorting: optional indexing agrees on all indices,
including out-of-range ones. -/
theorem from_cdp_agentkit_wrapper_tools_index {Schema Func Wrapper : Type}
    (reg : List (CdpAction Schema Func)) (w : Wrapper) (i : Nat) :
    (CdpToolkit.from_cdp_agentkit_wrapper reg w).tools[i]? =
      (reg[i]?).map (fun action =>
        { name := action.name
          description := action.description
          cdp_agentkit_wrapper := w
          args_schema := action.args_schema
          func := action.func : CdpTool Schema Func Wrapper }) := by
  simp [CdpToolkit.from_cdp_agentkit_wrapper]

/-- C3: for every registry and every valid index i, the i-th tool wrapper
carries exactly the i-th descriptor name, description, args_schema and
function, with no transformation applied. -/
theorem from_cdp_agentkit_wrapper_tools_fields {Schema Func Wrapper : Type}
    (reg : List (CdpAction Schema Func)) (w : Wrapper) (i : Nat)
    (h : i < reg.length)
    (h2 : i < (CdpToolkit.from_cdp_agentkit_wrapper reg w).tools.length) :
    ((CdpToolkit.from_cdp_agentkit_wrapper reg w).tools.get ⟨i, h2⟩).name
        = (reg.get ⟨i, h⟩).name ∧
    ((CdpToolkit.from_cdp_agentkit_wrapper reg w).tools.get ⟨i, h2⟩).description
        = (reg.get ⟨i, h⟩).description ∧
    ((CdpToolkit.from_cdp_agentkit_wrapper reg w).tools.get ⟨i, h2⟩).args_schema
        = (reg.get ⟨i, h⟩).args_schema ∧
    ((CdpToolkit.from_cdp_agentkit_wrapper reg w).tools.get ⟨i, h2⟩).func
        = (reg.get ⟨i, h⟩).func := by
  simp [CdpToolkit.from_cdp_agentkit_wrapper]

/-- C3 witness: the field equalities hold at a concrete registry, index
and credentials object. -/
theorem from_cdp_agentkit_wrapper_tools_fields_witness :
    (0 < ([⟨"get_wallet_details", "shows wallet", 3, 7⟩] :
        List (CdpAction Nat Nat)).length) ∧
    (0 < (CdpToolkit.from_cdp_agentkit_wrapper
        ([⟨"get_wallet_details", "shows wallet", 3, 7⟩] :
          List (CdpAction Nat Nat)) (5 : Nat)).tools.length) ∧
    (((CdpToolkit.from_cdp_agentkit_wrapper
        ([⟨"get_wallet_details", "shows wallet", 3, 7⟩] :
          List (CdpAction Nat Nat)) (5 : Nat)).tools.get
        ⟨0, by decide⟩).name = "get_wallet_details") :=
  ⟨by decide, by decide,
    (from_cdp_agentkit_wrapper_tools_fields
      [⟨"get_wallet_details", "shows wallet", 3, 7⟩] 5 0
      (by decide) (by decide)).1.trans (by decide)⟩

/-- C4: every tool wrapper in the constructed sequence carries a
reference to the one credentials/config object supplied at construction
time. -/
theorem from_cdp_agentkit_wrapper_binds_credentials {Schema Func Wrapper : Type}
    (reg : List (CdpAction Schema Func)) (w : Wrapper)
    (t : CdpTool Schema Func Wrapper)
    (ht : t ∈ (CdpToolkit.from_cdp_agentkit_wrapper reg w).tools) :
    t.cdp_agentkit_wrapper = w := by
  simp [CdpToolkit.from_cdp_agentkit_wrapper] at ht
  obtain ⟨a, -, rfl⟩ := ht
  rfl

/-- C4 witness: the binding holds at a concrete registry, tool and
credentials object. -/
theorem from_cdp_agentkit_wrapper_binds_credentials_witness :
    (({ name := "transfer", description := "moves funds",
        cdp_agentkit_wrapper := 5, args_schema := 3, func := 7 } :
          CdpTool Nat Nat Nat) ∈
      (CdpToolkit.from_cdp_agentkit_wrapper
        ([⟨"transfer", "moves funds", 3, 7⟩] : List (CdpAction Nat Nat))
        (5 : Nat)).tools) ∧
    (({ name := "transfer", description := "moves funds",
        cdp_agentkit_wrapper := 5, args_schema := 3, func := 7 } :
          CdpTool Nat Nat Nat).cdp_agentkit_wrapper = 5) :=
  ⟨by decide,
    from_cdp_agentkit_wrapper_binds_credentials
      [⟨"transfer", "moves funds", 3, 7⟩] 5 _ (by decide)⟩

/-- C5: for every adapter, calling get_tools twice in succession returns
equal sequences: the second call, made on the state left behind by the
first, yields the same list. -/
theorem get_tools_idempotent {Schema Func Wrapper : Type}
    (tk : CdpToolkit Schema Func Wrapper) :
    (CdpToolkit.get_tools (CdpToolkit.get_tools tk).2).1
      = (CdpToolkit.get_tools tk).1 := rfl

/-- C6: get_tools returns the stored tools sequence unmodified and has no
side effect on the adapter: after any number n of retrieval calls the
adapter state is unchanged. -/
theorem get_tools_frame {Schema Func Wrapper : Type}
    (tk : CdpToolkit Schema Func Wrapper) (n : Nat) :
    (CdpToolkit.get_tools tk).1 = tk.tools ∧
    (fun s => (CdpToolkit.get_tools s).2)^[n] tk = tk :=
  ⟨rfl, Function.iterate_fixed rfl n⟩

/-- C7: construction defines no error conditions and performs no
validation of the credentials object: the embedding is a total function
(the source body has no raise and no try), and the result depends on the
credentials object only as the reference stored in each wrapper, so
uniformly replacing that stored reference turns the result for one
credentials object into the result for any other. -/
theorem from_cdp_agentkit_wrapper_credentials_opaque
    {Schema Func Wrapper : Type}
    (reg : List (CdpAction Schema Func)) (w w2 : Wrapper) :
    (CdpToolkit.from_cdp_agentkit_wrapper reg w2).tools =
      ((CdpToolkit.from_cdp_agentkit_wrapper reg w).tools).map
        (fun t => { t with cdp_agentkit_wrapper := w2 }) := by
  simp [CdpToolkit.from_cdp_agentkit_wrapper, List.map_map]

/-- C8: constructing an adapter from the empty registry yields an empty
tools sequence, and get_tools on it returns the empty sequence. -/
theorem from_cdp_agentkit_wrapper_empty {Schema Func Wrapper : Type}
    (w : Wrapper) :
    (CdpToolkit.from_cdp_agentkit_wrapper
        ([] : List (CdpAction Schema Func)) w).tools = [] ∧
    (CdpToolkit.get_tools (CdpToolkit.from_cdp_agentkit_wrapper
        ([] : List (CdpAction Schema Func)) w)).1 = [] :=
  ⟨rfl, rfl⟩

/-- C9: for a registry of two descriptors named get_balance then
transfer, construction followed by retrieval returns a two-element
sequence whose element names are get_balance then transfer, in that
order. -/
theorem from_cdp_agentkit_wrapper_scenario {Schema Func Wrapper : Type}
    (a b : CdpAction Schema Func) (w : Wrapper)
    (ha : a.name = "get_balance") (hb : b.name = "transfer") :
    ((CdpToolkit.get_tools
        (CdpToolkit.from_cdp_agentkit_wrapper [a, b] w)).1.length = 2) ∧
    (((CdpToolkit.get_tools
        (CdpToolkit.from_cdp_agentkit_wrapper [a, b] w)).1)[0]?.map
          CdpTool.name = some "get_balance") ∧
    (((CdpToolkit.get_tools
        (CdpToolkit.from_cdp_agentkit_wrapper [a, b] w)).1)[1]?.map
          CdpTool.name = some "transfer") := by
  simp [CdpToolkit.get_tools, CdpToolkit.from_cdp_agentkit_wrapper, ha, hb]

/-- C9 witness: the scenario instantiated at concrete descriptors and a
concrete credentials object. -/
theorem from_cdp_agentkit_wrapper_scenario_witness :
    ((⟨"get_balance", "reads balance", 3, 7⟩ :
        CdpAction Nat Nat).name = "get_balance") ∧
    ((⟨"transfer", "moves funds", 4, 8⟩ :
        CdpAction Nat Nat).name = "transfer") ∧
    (((CdpToolkit.get_tools (CdpToolkit.from_cdp_agentkit_wrapper
        [⟨"get_balance", "reads balance", 3, 7⟩,
          ⟨"transfer", "moves funds", 4, 8⟩] (5 : Nat))).1.length = 2) ∧
    (((CdpToolkit.get_tools (CdpToolkit.from_cdp_agentkit_wrapper
        [⟨"get_balance", "reads balance", 3, 7⟩,
          ⟨"transfer", "moves funds", 4, 8⟩] (5 : Nat))).1)[0]?.map
            CdpTool.name = some "get_balance") ∧
    (((CdpToolkit.get_tools (CdpToolkit.from_cdp_agentkit_wrapper
        [⟨"get_balance", "reads balance", 3, 7⟩,
          ⟨"transfer", "moves funds", 4, 8⟩] (5 : Nat))).1)[1]?.map
            CdpTool.name = some "transfer")) :=
  ⟨rfl, rfl,
    from_cdp_agentkit_wrapper_scenario
      ⟨"get_balance", "reads balance", 3, 7⟩
      ⟨"transfer", "moves funds", 4, 8⟩ 5 rfl rfl⟩

/-- C10: a CdpToolkit built directly with no tools argument takes the
default field value, the empty list, so get_tools on it returns the empty
sequence. -/
theorem default_toolkit_tools_empty {Schema Func Wrapper : Type} :
    (({} : CdpToolkit Schema Func Wrapper)).tools = [] ∧
    (CdpToolkit.get_tools ({} : CdpToolkit Schema Func Wrapper)).1 = [] :=
  ⟨rfl, rfl⟩
